import Mathlib

/-!
Verification of `src/SFML/Window/Unix/VideoModeImpl.cpp` (SFML, Unix video
mode discovery via the XRandR extension).

The two entry points, `VideoModeImpl::getFullscreenModes` and
`VideoModeImpl::getDesktopMode`, are pure read-only queries of the X
server's state.  We embed the observable X server state in a structure
`Env` and translate both functions as total Lean functions over it.
Besides the returned value, each embedded function also records

* the diagnostic lines written to `sf::err()` (the diagnostic sink), and
* the trace of native resource acquisitions and releases
  (`XOpenDisplay`/`XCloseDisplay`, `XRRGetScreenInfo`/`XRRFreeScreenConfigInfo`,
  `XRRGetScreenResources`/`XRRFreeScreenResources`,
  `XRRGetOutputInfo`/`XRRFreeOutputInfo`, `XListDepths`/`XFree`),

so that error reporting and resource lifetime claims can be stated.
-/

namespace SfmlVideoMode

/-- `sf::VideoMode`: a (width, height, bitsPerPixel) triple.
Equality is structural (`operator==` compares all three fields). -/
structure VideoMode where
  width : Nat
  height : Nat
  bitsPerPixel : Nat
deriving DecidableEq, Repr

/-- The screen rotation reported by `XRRConfigRotations`: one of
`RR_Rotate_0`, `RR_Rotate_90`, `RR_Rotate_180`, `RR_Rotate_270`. -/
inductive RotationState where
  | rotate0
  | rotate90
  | rotate180
  | rotate270
deriving DecidableEq, Repr

/-- One entry of `XRRScreenResources::modes`: an `XRRModeInfo` descriptor,
of which the code reads the fields `id`, `width` and `height`. -/
structure XRRModeInfo where
  id : Nat
  width : Nat
  height : Nat
deriving DecidableEq, Repr

/-- The observable state of the X server, as queried by the two functions.
`none` / `false` components model the corresponding native call failing.

* `display`: whether `OpenDisplay()` returns a non-null connection.
* `hasRandr`: whether `XQueryExtension(display, "RANDR", ...)` succeeds.
* `config`: `XRRGetScreenInfo` result; when present it carries the current
  rotation as reported by `XRRConfigRotations`.
* `resources`: `XRRGetScreenResources` result; its `modes` array of
  `XRRModeInfo` descriptors.
* `output`: `XRRGetOutputInfo` result for the primary output; the code
  reads only its `modes` list of RRMode identifiers (and `nmode`).
* `depths`: `XListDepths` result; `none` models a null pointer, `some ds`
  a non-null array holding `nbDepths = ds.length` entries.
* `defaultDepth`: `DefaultDepth(display, screen)`. -/
structure Env where
  display : Bool
  hasRandr : Bool
  config : Option RotationState
  resources : Option (List XRRModeInfo)
  output : Option (List Nat)
  depths : Option (List Nat)
  defaultDepth : Nat
deriving Repr

/-- Native resources acquired by the acquisition chain. -/
inductive Resource where
  | display
  | config
  | resources
  | outputInfo
  | depthList
deriving DecidableEq, Repr

/-- One acquisition or release of a native resource, in program order. -/
inductive Event where
  | acquire (r : Resource)
  | release (r : Resource)
deriving DecidableEq, Repr

/-- Rotation correction, identical in both functions
(lines 89–93 and 181–185 of the source):

    Rotation currentRotation;
    XRRConfigRotations(config, &currentRotation);
    if (currentRotation == RR_Rotate_90 || currentRotation == RR_Rotate_270)
        std::swap(mode.width, mode.height);
-/
def rotateMode (rotation : RotationState) (mode : VideoMode) : VideoMode :=
  if rotation = .rotate90 ∨ rotation = .rotate270 then
    { mode with width := mode.height, height := mode.width }
  else
    mode

/-- `std::swap(mode.width, mode.height)` as a function: exchange the width
and height of a VideoMode, keeping the depth. -/
def swapWH (m : VideoMode) : VideoMode :=
  ⟨m.height, m.width, m.bitsPerPixel⟩

/-- Lines 96–97: `if (std::find(modes.begin(), modes.end(), mode) == modes.end())
modes.push_back(mode);` — append the candidate only if no structurally equal
entry is already present. -/
def insertMode (modes : List VideoMode) (mode : VideoMode) : List VideoMode :=
  if mode ∈ modes then modes else modes ++ [mode]

/-- Result of one run of `getFullscreenModes`: the returned vector, the
diagnostic lines sent to `sf::err()`, and the resource event trace. -/
structure EnumRun where
  modes : List VideoMode
  diagnostics : List String
  events : List Event
deriving Repr

/-- Result of one run of `getDesktopMode`.  `mode = none` records that the
run reached the unchecked read `output_info->modes[0]` on an empty mode
list — an out-of-bounds access that has no defined result. -/
structure DesktopRun where
  mode : Option VideoMode
  diagnostics : List String
  events : List Event
deriving Repr

/-- Embedding of `VideoModeImpl::getFullscreenModes` (lines 41–140).

The triple loop over depths (outer), the primary output's mode identifiers
(middle) and the screen resource descriptors (inner) is translated as
nested left folds over the corresponding lists.  `XRRConfigRotations` is
called inside the innermost loop in the source, but it is a pure read of
the already-fetched `config`, so the rotation is bound once here.
The `XFree(depths)` call sits inside the `if (depths && (nbDepths > 0))`
block in the source, hence no `release depthList` event is produced when
the depth array is non-null but empty. -/
def getFullscreenModes (env : Env) : EnumRun :=
  if env.display then
    let run : EnumRun :=
      if env.hasRandr then
        match env.config with
        | some rotation =>
          let run : EnumRun :=
            match env.resources with
            | some res =>
              let run : EnumRun :=
                match env.output with
                | some outputModes =>
                  let run : EnumRun :=
                    match env.depths with
                    | some depths =>
                      if 0 < depths.length then
                        let modes := depths.foldl (fun modes d =>
                          outputModes.foldl (fun modes jmode =>
                            res.foldl (fun modes info =>
                              if jmode = info.id then
                                insertMode modes
                                  (rotateMode rotation ⟨info.width, info.height, d⟩)
                              else
                                modes) modes) modes) []
                        { modes := modes, diagnostics := [],
                          events := [.acquire .depthList, .release .depthList] }
                      else
                        { modes := [], diagnostics := [],
                          events := [.acquire .depthList] }
                    | none =>
                      { modes := [], diagnostics := [], events := [] }
                  { run with events := [.acquire .outputInfo] ++ run.events ++
                      [.release .outputInfo] }
                | none =>
                  { modes := [], diagnostics := [], events := [] }
              { run with events := [.acquire .resources] ++ run.events ++
                  [.release .resources] }
            | none =>
              { modes := [], diagnostics := [], events := [] }
          { run with events := [.acquire .config] ++ run.events ++
              [.release .config] }
        | none =>
          { modes := [], diagnostics :=
              ["Failed to retrieve the screen configuration while trying to get the supported video modes"],
            events := [] }
      else
        { modes := [], diagnostics :=
            ["Failed to use the XRandR extension while trying to get the supported video modes"],
          events := [] }
    { run with events := [.acquire .display] ++ run.events ++ [.release .display] }
  else
    { modes := [], diagnostics :=
        ["Failed to connect to the X server while trying to get the supported video modes"],
      events := [] }

/-- Embedding of `VideoModeImpl::getDesktopMode` (lines 144–222).

`VideoMode desktopMode;` default-constructs the result.  The `VideoMode`
default constructor is not under `src/`; modelled from the spec: it
zero-initialises all three fields.  The unchecked read
`output_info->modes[0]` is translated with `List.head?`; on an empty mode
list the run yields `mode = none` (the undefined access).  The loop over
the resource descriptors assigns `desktopMode` on every identifier match,
so the last matching descriptor wins. -/
def getDesktopMode (env : Env) : DesktopRun :=
  if env.display then
    let run : DesktopRun :=
      if env.hasRandr then
        match env.config with
        | some rotation =>
          let run : DesktopRun :=
            match env.resources with
            | some res =>
              let run : DesktopRun :=
                match env.output with
                | some outputModes =>
                  let result : Option VideoMode :=
                    match outputModes.head? with
                    | some mode =>
                      some (res.foldl (fun desktopMode info =>
                        if mode = info.id then
                          rotateMode rotation
                            ⟨info.width, info.height, env.defaultDepth⟩
                        else
                          desktopMode) ⟨0, 0, 0⟩)
                    | none => none
                  { mode := result, diagnostics := [],
                    events := [Event.acquire .outputInfo, Event.release .outputInfo] }
                | none =>
                  { mode := some ⟨0, 0, 0⟩, diagnostics := [], events := [] }
              { run with events := [.acquire .resources] ++ run.events ++
                  [.release .resources] }
            | none =>
              { mode := some ⟨0, 0, 0⟩, diagnostics := [], events := [] }
          { run with events := [.acquire .config] ++ run.events ++
              [.release .config] }
        | none =>
          { mode := some ⟨0, 0, 0⟩, diagnostics :=
              ["Failed to retrieve the screen configuration while trying to get the desktop video modes"],
            events := [] }
      else
        { mode := some ⟨0, 0, 0⟩, diagnostics :=
            ["Failed to use the XRandR extension while trying to get the desktop video modes"],
          events := [] }
    { run with events := [.acquire .display] ++ run.events ++ [.release .display] }
  else
    { mode := some ⟨0, 0, 0⟩, diagnostics :=
        ["Failed to connect to the X server while trying to get the desktop video modes"],
      events := [] }

/-- Spec-side (section 3 of the design document): deduplication that keeps
the EARLIER occurrence of each value and suppresses later ones. -/
def dedupFirst {α : Type _} [DecidableEq α] : List α → List α
  | [] => []
  | a :: l => a :: dedupFirst (l.filter fun b => decide (b ≠ a))
termination_by l => l.length
decreasing_by
  simp only [List.length_cons]
  exact Nat.lt_succ_of_le (List.length_filter_le _ _)

/-- Spec-side (sections 3 and 4.1 of the design document): the raw candidate
sequence in discovery order — depth-major, then position in the output's
mode list, then position in the resource table; each matching descriptor
contributes one rotation-corrected candidate. -/
def discoveryCandidates (rotation : RotationState) (depths : List Nat)
    (outputModes : List Nat) (res : List XRRModeInfo) : List VideoMode :=
  depths.flatMap fun d =>
    outputModes.flatMap fun m =>
      res.flatMap fun info =>
        if m = info.id then [rotateMode rotation ⟨info.width, info.height, d⟩]
        else []

/-- Stack discipline for a resource event trace: every release matches the
most recently acquired, not yet released resource, and at the end of the
trace every acquired resource has been released.  A trace satisfying
`checkBracketed tr [] = true` releases each acquired resource exactly once,
in exact reverse of acquisition order. -/
def checkBracketed : List Event → List Resource → Bool
  | [], [] => true
  | [], _ :: _ => false
  | Event.acquire r :: es, stack => checkBracketed es (r :: stack)
  | Event.release r :: es, s :: stack =>
    if r = s then checkBracketed es stack else false
  | Event.release _ :: _, [] => false

theorem dedupFirst_nil {α : Type _} [DecidableEq α] :
    dedupFirst ([] : List α) = [] := by
  simp [dedupFirst]

theorem dedupFirst_cons {α : Type _} [DecidableEq α] (a : α) (l : List α) :
    dedupFirst (a :: l) = a :: dedupFirst (l.filter fun b => decide (b ≠ a)) := by
  rw [dedupFirst]

theorem mem_dedupFirst {α : Type _} [DecidableEq α] (l : List α) (x : α) :
    x ∈ dedupFirst l ↔ x ∈ l := by
  induction l using dedupFirst.induct with
  | case1 => simp [dedupFirst_nil]
  | case2 a l ih =>
    rw [dedupFirst_cons]
    by_cases hx : x = a
    · simp [hx]
    · simp only [List.mem_cons, ih, List.mem_filter, decide_eq_true_eq]
      constructor
      · rintro (h | ⟨h, _⟩)
        · exact Or.inl h
        · exact Or.inr h
      · rintro (h | h)
        · exact Or.inl h
        · exact Or.inr ⟨h, hx⟩

theorem nodup_dedupFirst {α : Type _} [DecidableEq α] (l : List α) :
    (dedupFirst l).Nodup := by
  induction l using dedupFirst.induct with
  | case1 => simp [dedupFirst_nil]
  | case2 a l ih =>
    rw [dedupFirst_cons]
    refine List.nodup_cons.mpr ⟨?_, ih⟩
    intro hmem
    rcases (List.mem_filter.mp ((mem_dedupFirst _ _).mp hmem)) with ⟨-, hne⟩
    exact (decide_eq_true_eq.mp hne) rfl

theorem foldl_insertMode (l : List VideoMode) :
    ∀ acc : List VideoMode,
      List.foldl insertMode acc l
        = acc ++ dedupFirst (l.filter fun v => decide (v ∉ acc)) := by
  induction l with
  | nil => intro acc; simp [dedupFirst_nil]
  | cons a l ih =>
    intro acc
    by_cases ha : a ∈ acc
    · have h1 : insertMode acc a = acc := by simp [insertMode, ha]
      have h2 : (List.filter (fun v => decide (v ∉ acc)) (a :: l))
          = List.filter (fun v => decide (v ∉ acc)) l := by
        simp [List.filter_cons, ha]
      simp only [List.foldl_cons, h1, h2, ih]
    · have h1 : insertMode acc a = acc ++ [a] := by simp [insertMode, ha]
      have h2 : (List.filter (fun v => decide (v ∉ acc)) (a :: l))
          = a :: List.filter (fun v => decide (v ∉ acc)) l := by
        simp [List.filter_cons, ha]
      have h3 : List.filter (fun v => decide (v ∉ acc ++ [a])) l
          = List.filter (fun b => decide (b ≠ a))
              (List.filter (fun v => decide (v ∉ acc)) l) := by
        rw [List.filter_filter]
        refine List.filter_congr ?_
        intro x _
        by_cases hxa : x = a
        · simp [hxa]
        · by_cases hxacc : x ∈ acc
          · simp [hxacc, hxa]
          · simp [hxacc, hxa]
      rw [List.foldl_cons, h1, ih, h2, dedupFirst_cons, h3, List.append_assoc,
        List.singleton_append]

theorem foldl_flatMap_eq {α β γ : Type _} (f : β → α → β) (g : γ → List α)
    (l : List γ) : ∀ init : β,
    (l.flatMap g).foldl f init = l.foldl (fun acc x => (g x).foldl f acc) init := by
  induction l with
  | nil => intro init; rfl
  | cons a l ih =>
    intro init
    rw [List.flatMap_cons, List.foldl_append, List.foldl_cons, ih]

theorem foldl_flatMap_filter_eq {α γ : Type _} (f : α → VideoMode → α)
    (p : γ → Prop) [DecidablePred p] (c : γ → VideoMode) (l : List γ) :
    ∀ init : α,
    (l.flatMap fun x => if p x then [c x] else []).foldl f init
      = l.foldl (fun acc x => if p x then f acc (c x) else acc) init := by
  induction l with
  | nil => intro init; rfl
  | cons a l ih =>
    intro init
    rw [List.flatMap_cons, List.foldl_append, List.foldl_cons]
    by_cases hp : p a
    · simp only [if_pos hp, List.foldl_cons, List.foldl_nil, ih]
    · simp only [if_neg hp, List.foldl_nil, ih]

theorem foldl_if_singleton {α β : Type _} (f : β → α → β) (acc : β)
    (p : Prop) [Decidable p] (c : α) :
    List.foldl f acc (if p then [c] else []) = if p then f acc c else acc := by
  by_cases hp : p <;> simp [hp]

/-- The nested loop of `getFullscreenModes` (lines 74–101) computes the
insert-if-absent fold over the discovery-ordered candidate sequence. -/
theorem loop_eq_foldl_candidates (rotation : RotationState) (depths : List Nat)
    (outputModes : List Nat) (res : List XRRModeInfo) :
    depths.foldl (fun modes d =>
        outputModes.foldl (fun modes jmode =>
          res.foldl (fun modes info =>
            if jmode = info.id then
              insertMode modes (rotateMode rotation ⟨info.width, info.height, d⟩)
            else
              modes) modes) modes) []
      = List.foldl insertMode [] (discoveryCandidates rotation depths outputModes res) := by
  simp only [discoveryCandidates, foldl_flatMap_eq, foldl_if_singleton]

/-- When every acquisition step succeeds and the depth list is nonempty,
the returned vector is the first-kept deduplication of the
discovery-ordered candidate sequence, no diagnostic is emitted, and the
event trace is the fully bracketed acquisition chain. -/
theorem getFullscreenModes_success (env : Env) (r : RotationState)
    (res : List XRRModeInfo) (outs ds : List Nat)
    (h1 : env.display = true) (h2 : env.hasRandr = true)
    (h3 : env.config = some r) (h4 : env.resources = some res)
    (h5 : env.output = some outs) (h6 : env.depths = some ds)
    (h7 : 0 < ds.length) :
    getFullscreenModes env
      = { modes := dedupFirst (discoveryCandidates r ds outs res),
          diagnostics := [],
          events := [.acquire .display, .acquire .config, .acquire .resources,
                     .acquire .outputInfo, .acquire .depthList,
                     .release .depthList, .release .outputInfo,
                     .release .resources, .release .config, .release .display] } := by
  have hmodes := loop_eq_foldl_candidates r ds outs res
  rw [foldl_insertMode] at hmodes
  simp at hmodes
  simp only [getFullscreenModes, h1, h2, h3, h4, h5, h6, if_true, if_pos h7,
    hmodes]
  simp

/-- C7: the sequence returned by `getFullscreenModes` is ordered by discovery
order — depth-major, then position in the output's mode list, then position
in the resource table — and when a structurally equal value is discovered
again later in that traversal, the earlier occurrence is kept and the later
one suppressed: the result is exactly the first-kept deduplication of the
discovery-ordered candidate sequence. -/
theorem getFullscreenModes_discovery_order (env : Env) (r : RotationState)
    (res : List XRRModeInfo) (outs ds : List Nat)
    (h1 : env.display = true) (h2 : env.hasRandr = true)
    (h3 : env.config = some r) (h4 : env.resources = some res)
    (h5 : env.output = some outs) (h6 : env.depths = some ds)
    (h7 : 0 < ds.length) :
    (getFullscreenModes env).modes = dedupFirst (discoveryCandidates r ds outs res) := by
  rw [getFullscreenModes_success env r res outs ds h1 h2 h3 h4 h5 h6 h7]

/-- Witness for C7, instantiating Scenario C of the spec: depths `[24, 32]`,
one output mode resolving to 1920×1080, rotation 0° — the result is exactly
`[(1920,1080,24), (1920,1080,32)]` in depth-major discovery order. -/
theorem getFullscreenModes_discovery_order_witness :
    (getFullscreenModes
        ⟨true, true, some .rotate0, some [⟨1, 1920, 1080⟩], some [1], some [24, 32], 24⟩).modes
      = dedupFirst (discoveryCandidates .rotate0 [24, 32] [1] [⟨1, 1920, 1080⟩])
    ∧ (getFullscreenModes
        ⟨true, true, some .rotate0, some [⟨1, 1920, 1080⟩], some [1], some [24, 32], 24⟩).modes
      = [⟨1920, 1080, 24⟩, ⟨1920, 1080, 32⟩] :=
  ⟨getFullscreenModes_discovery_order _ .rotate0 _ _ _ rfl rfl rfl rfl rfl rfl
    (by decide), by decide⟩

/-- C1: for every depth `d` in the fetched depth list and every mode
identifier `m` in the primary output's mode list that matches a descriptor
`info` in the resource table, the sequence returned by
`getFullscreenModes` contains exactly one VideoMode structurally equal to
the rotation-corrected `(info.width, info.height, d)`; moreover no two
elements of the returned sequence are structurally equal. -/
theorem getFullscreenModes_unique_per_resolved_pair (env : Env)
    (r : RotationState) (res : List XRRModeInfo) (outs ds : List Nat)
    (h1 : env.display = true) (h2 : env.hasRandr = true)
    (h3 : env.config = some r) (h4 : env.resources = some res)
    (h5 : env.output = some outs) (h6 : env.depths = some ds)
    (h7 : 0 < ds.length) :
    (getFullscreenModes env).modes.Nodup ∧
    ∀ d ∈ ds, ∀ m ∈ outs, ∀ info ∈ res, m = info.id →
      (getFullscreenModes env).modes.count
        (rotateMode r ⟨info.width, info.height, d⟩) = 1 := by
  have hm : (getFullscreenModes env).modes
      = dedupFirst (discoveryCandidates r ds outs res) := by
    rw [getFullscreenModes_success env r res outs ds h1 h2 h3 h4 h5 h6 h7]
  constructor
  · rw [hm]; exact nodup_dedupFirst _
  · intro d hd m hmo info hinfo heq
    rw [hm]
    refine List.count_eq_one_of_mem (nodup_dedupFirst _) ?_
    rw [mem_dedupFirst, discoveryCandidates]
    refine List.mem_flatMap.mpr ⟨d, hd, ?_⟩
    refine List.mem_flatMap.mpr ⟨m, hmo, ?_⟩
    refine List.mem_flatMap.mpr ⟨info, hinfo, ?_⟩
    simp [heq]

/-- Witness for C1: two distinct mode identifiers resolving to the same
1920×1080 size — the duplicate triple is present exactly once and the
result has no structurally equal pair. -/
theorem getFullscreenModes_unique_per_resolved_pair_witness :
    (getFullscreenModes
        ⟨true, true, some .rotate0, some [⟨1, 1920, 1080⟩, ⟨2, 1920, 1080⟩],
         some [1, 2], some [24], 24⟩).modes.Nodup ∧
    ∀ d ∈ [24], ∀ m ∈ [1, 2], ∀ info ∈ [XRRModeInfo.mk 1 1920 1080, XRRModeInfo.mk 2 1920 1080],
      m = info.id →
      (getFullscreenModes
        ⟨true, true, some .rotate0, some [⟨1, 1920, 1080⟩, ⟨2, 1920, 1080⟩],
         some [1, 2], some [24], 24⟩).modes.count
        (rotateMode .rotate0 ⟨info.width, info.height, d⟩) = 1 :=
  getFullscreenModes_unique_per_resolved_pair _ .rotate0 _ _ _
    rfl rfl rfl rfl rfl rfl (by decide)

/-- C3: `getFullscreenModes` is a total function (it never propagates an
error signal), and whenever the display connection fails, the RANDR
extension is absent, or any metadata fetch (screen configuration, resource
table, output descriptor, depth list) fails, it returns the empty
sequence. -/
theorem getFullscreenModes_failure_returns_empty (env : Env)
    (h : env.display = false ∨ env.hasRandr = false ∨ env.config = none ∨
         env.resources = none ∨ env.output = none ∨ env.depths = none ∨
         env.depths = some []) :
    (getFullscreenModes env).modes = [] := by
  obtain ⟨d, x, c, rs, o, dp, dd⟩ := env
  cases d <;> cases x <;> cases c <;> cases rs <;> cases o <;> cases dp <;>
    simp_all [getFullscreenModes]

/-- Witness for C3: a failed display connection yields the empty sequence. -/
theorem getFullscreenModes_failure_returns_empty_witness :
    (getFullscreenModes ⟨false, false, none, none, none, none, 0⟩).modes = [] :=
  getFullscreenModes_failure_returns_empty _ (Or.inl rfl)

/-- C4: `getDesktopMode` is a total function (it never raises an error
signal), and it returns the zero-valued VideoMode whenever the connection
cannot be opened, the extension is absent, or any metadata fetch fails. -/
theorem getDesktopMode_failure_returns_zero (env : Env)
    (h : env.display = false ∨ env.hasRandr = false ∨ env.config = none ∨
         env.resources = none ∨ env.output = none) :
    (getDesktopMode env).mode = some ⟨0, 0, 0⟩ := by
  obtain ⟨d, x, c, rs, o, dp, dd⟩ := env
  cases d <;> cases x <;> cases c <;> cases rs <;> cases o <;>
    simp_all [getDesktopMode]

/-- Witness for C4: a missing RANDR extension yields `VideoMode (0,0,0)`. -/
theorem getDesktopMode_failure_returns_zero_witness :
    (getDesktopMode ⟨true, false, none, none, none, none, 0⟩).mode
      = some ⟨0, 0, 0⟩ :=
  getDesktopMode_failure_returns_zero _ (Or.inr (Or.inl rfl))

/-- Counterexample to C5: when the screen resource table fetch fails
(`XRRGetScreenResources` returns null), `getFullscreenModes` emits NO
diagnostic line at all — contradicting the claim that every failing fetch
step emits exactly one diagnostic line naming the failed step. -/
theorem getFullscreenModes_silent_resource_failure :
    (⟨true, true, some .rotate0, none, none, none, 0⟩ : Env).resources = none
    ∧ (getFullscreenModes ⟨true, true, some .rotate0, none, none, none, 0⟩).diagnostics = []
    ∧ (getFullscreenModes ⟨true, true, some .rotate0, none, none, none, 0⟩).modes = [] := by
  refine ⟨rfl, ?_, ?_⟩ <;> rfl

/-- C5 as amended: `getFullscreenModes` emits exactly one diagnostic line
for a connection failure, for a missing RANDR extension, and for a failed
screen-configuration fetch; once the screen configuration has been
obtained, no diagnostic is ever emitted — failures of the resource table,
output descriptor, or depth list abort silently. -/
theorem getFullscreenModes_diagnostics_characterization (env : Env) :
    (env.display = false → (getFullscreenModes env).diagnostics
      = ["Failed to connect to the X server while trying to get the supported video modes"])
    ∧ (env.display = true → env.hasRandr = false →
      (getFullscreenModes env).diagnostics
      = ["Failed to use the XRandR extension while trying to get the supported video modes"])
    ∧ (env.display = true → env.hasRandr = true → env.config = none →
      (getFullscreenModes env).diagnostics
      = ["Failed to retrieve the screen configuration while trying to get the supported video modes"])
    ∧ (env.display = true → env.hasRandr = true → ∀ r, env.config = some r →
      (getFullscreenModes env).diagnostics = []) := by
  obtain ⟨d, x, c, rs, o, dp, dd⟩ := env
  cases d <;> cases x <;> cases c <;> cases rs <;> cases o <;> cases dp <;>
    simp_all [getFullscreenModes, apply_ite EnumRun.diagnostics]

/-- Witness for the amended C5: with the configuration fetched and the
output descriptor fetch failing, the diagnostic channel stays empty. -/
theorem getFullscreenModes_diagnostics_characterization_witness :
    (getFullscreenModes ⟨true, true, some .rotate90, some [], none, none, 5⟩).diagnostics
      = [] :=
  (getFullscreenModes_diagnostics_characterization _).2.2.2 rfl rfl .rotate90 rfl

theorem foldl_assign_no_match {α γ : Type _} (l : List γ) (p : γ → Prop)
    [DecidablePred p] (g : γ → α) (acc : α) (h : ∀ i ∈ l, ¬ p i) :
    l.foldl (fun a i => if p i then g i else a) acc = acc := by
  induction l generalizing acc with
  | nil => rfl
  | cons a l ih =>
    rw [List.foldl_cons, if_neg (h a (List.mem_cons_self a l))]
    exact ih acc fun i hi => h i (List.mem_cons_of_mem a hi)

theorem foldl_assign_unique {α γ : Type _} (l : List γ) (p : γ → Prop)
    [DecidablePred p] (g : γ → α) (info : γ) (acc : α)
    (h : l.filter (fun i => decide (p i)) = [info]) :
    l.foldl (fun a i => if p i then g i else a) acc = g info := by
  induction l generalizing acc with
  | nil => simp at h
  | cons a l ih =>
    rw [List.filter_cons] at h
    by_cases hp : p a
    · simp only [hp, decide_true_eq_true, if_true, List.cons.injEq] at h
      obtain ⟨rfl, hrest⟩ := h
      rw [List.foldl_cons, if_pos hp]
      refine foldl_assign_no_match l p g (g a) ?_
      intro i hi hpi
      have := List.filter_eq_nil_iff.mp hrest i hi
      simp [hpi] at this
    · simp only [hp, decide_false_eq_false, if_false] at h
      rw [List.foldl_cons, if_neg hp]
      exact ih acc h

/-- C6: when all acquisition steps succeed, `getDesktopMode` selects the
mode identifier at position zero of the primary output's mode list, matches
it against the resource table for width and height, uses the screen's
default depth as bitsPerPixel, and applies the rotation-swap rule. -/
theorem getDesktopMode_selects_first_mode (env : Env) (r : RotationState)
    (res : List XRRModeInfo) (m0 : Nat) (rest : List Nat) (info : XRRModeInfo)
    (h1 : env.display = true) (h2 : env.hasRandr = true)
    (h3 : env.config = some r) (h4 : env.resources = some res)
    (h5 : env.output = some (m0 :: rest))
    (h6 : res.filter (fun i => decide (m0 = i.id)) = [info]) :
    (getDesktopMode env).mode
      = some (rotateMode r ⟨info.width, info.height, env.defaultDepth⟩) := by
  obtain ⟨d, x, c, rs, o, dp, dd⟩ := env
  simp only at h1 h2 h3 h4 h5
  subst h1 h2 h3 h4 h5
  simp only [getDesktopMode, if_true, List.head?]
  exact congrArg some (foldl_assign_unique res (fun i => m0 = i.id)
    (fun i => rotateMode r ⟨i.width, i.height, dd⟩) info ⟨0, 0, 0⟩ h6)

/-- Witness for C6, instantiating Scenario E of the spec: output modes
`[M7, M9]`, resource table `{M7 : (1280, 720)}`, default depth 24 and
rotation 180° yield `VideoMode (1280, 720, 24)`. -/
theorem getDesktopMode_selects_first_mode_witness :
    (getDesktopMode
        ⟨true, true, some .rotate180, some [⟨7, 1280, 720⟩], some [7, 9], none, 24⟩).mode
      = some (rotateMode .rotate180 ⟨1280, 720, 24⟩)
    ∧ (getDesktopMode
        ⟨true, true, some .rotate180, some [⟨7, 1280, 720⟩], some [7, 9], none, 24⟩).mode
      = some ⟨1280, 720, 24⟩ :=
  ⟨getDesktopMode_selects_first_mode _ .rotate180 _ 7 _ ⟨7, 1280, 720⟩
    rfl rfl rfl rfl rfl (by decide), by decide⟩

/-- C8: `getDesktopMode` reads position zero of the primary output's mode
list without a bounds check; in this total embedding the read is
translated with `List.head?`, and when the mode list is empty the run
reaches the `none` branch of that read (the undefined out-of-bounds
access), for any otherwise fully successful environment. -/
theorem getDesktopMode_empty_mode_list_oob (env : Env) (r : RotationState)
    (res : List XRRModeInfo)
    (h1 : env.display = true) (h2 : env.hasRandr = true)
    (h3 : env.config = some r) (h4 : env.resources = some res)
    (h5 : env.output = some []) :
    (getDesktopMode env).mode = none := by
  obtain ⟨d, x, c, rs, o, dp, dd⟩ := env
  simp only at h1 h2 h3 h4 h5
  subst h1 h2 h3 h4 h5
  simp [getDesktopMode]

/-- Witness for C8: a concrete fully successful environment whose primary
output reports no modes reaches the undefined read. -/
theorem getDesktopMode_empty_mode_list_oob_witness :
    (getDesktopMode
        ⟨true, true, some .rotate0, some [⟨1, 800, 600⟩], some [], some [24], 24⟩).mode
      = none :=
  getDesktopMode_empty_mode_list_oob _ .rotate0 _ rfl rfl rfl rfl rfl

/-- C10: when every acquisition step succeeds but the mode identifier at
position zero of the output's mode list matches no entry of the resource
table, `getDesktopMode` returns the zero-valued default VideoMode and
emits no diagnostic line — a silent failure. -/
theorem getDesktopMode_silent_no_match (env : Env) (r : RotationState)
    (res : List XRRModeInfo) (m0 : Nat) (rest : List Nat)
    (h1 : env.display = true) (h2 : env.hasRandr = true)
    (h3 : env.config = some r) (h4 : env.resources = some res)
    (h5 : env.output = some (m0 :: rest))
    (h6 : res.filter (fun i => decide (m0 = i.id)) = []) :
    (getDesktopMode env).mode = some ⟨0, 0, 0⟩
    ∧ (getDesktopMode env).diagnostics = [] := by
  obtain ⟨d, x, c, rs, o, dp, dd⟩ := env
  simp only at h1 h2 h3 h4 h5
  subst h1 h2 h3 h4 h5
  constructor
  · simp only [getDesktopMode, if_true, List.head?]
    refine congrArg some (foldl_assign_no_match res (fun i => m0 = i.id)
      (fun i => rotateMode r ⟨i.width, i.height, dd⟩) ⟨0, 0, 0⟩ ?_)
    intro i hi hpi
    have := List.filter_eq_nil_iff.mp h6 i hi
    simp [hpi] at this
  · rfl

/-- Witness for C10: identifier 3 is absent from the resource table; the
result is the zero mode and the diagnostic channel stays empty. -/
theorem getDesktopMode_silent_no_match_witness :
    (getDesktopMode
        ⟨true, true, some .rotate0, some [⟨5, 640, 480⟩], some [3], none, 16⟩).mode
      = some ⟨0, 0, 0⟩
    ∧ (getDesktopMode
        ⟨true, true, some .rotate0, some [⟨5, 640, 480⟩], some [3], none, 16⟩).diagnostics
      = [] :=
  getDesktopMode_silent_no_match _ .rotate0 _ 3 _ rfl rfl rfl rfl rfl (by decide)

theorem rotateMode_of_quarter (r : RotationState)
    (h : r = .rotate90 ∨ r = .rotate270) (m : VideoMode) :
    rotateMode r m = swapWH m := by
  rw [rotateMode, if_pos h]; rfl

theorem rotateMode_of_straight (r : RotationState)
    (h : r = .rotate0 ∨ r = .rotate180) (m : VideoMode) :
    rotateMode r m = m := by
  rcases h with h | h <;> subst h <;> rw [rotateMode, if_neg (by simp)]

theorem swapWH_injective : Function.Injective swapWH := by
  intro a b hab
  cases a; cases b
  simp only [swapWH, VideoMode.mk.injEq] at hab
  simp [VideoMode.mk.injEq, hab.1, hab.2.1, hab.2.2]

theorem dedupFirst_map_injective {α β : Type _} [DecidableEq α] [DecidableEq β]
    {f : α → β} (hf : Function.Injective f) (l : List α) :
    dedupFirst (l.map f) = (dedupFirst l).map f := by
  induction l using dedupFirst.induct with
  | case1 => simp [dedupFirst_nil]
  | case2 a l ih =>
    rw [List.map_cons, dedupFirst_cons, dedupFirst_cons, List.map_cons]
    have hfilter : (l.map f).filter (fun b => decide (b ≠ f a))
        = (l.filter fun b => decide (b ≠ a)).map f := by
      rw [List.filter_map]
      refine congrArg _ (List.filter_congr ?_)
      intro x _
      simp [Function.comp, hf.eq_iff]
    rw [hfilter, ih]

theorem discoveryCandidates_quarter (r : RotationState)
    (h : r = .rotate90 ∨ r = .rotate270) (ds outs : List Nat)
    (res : List XRRModeInfo) :
    discoveryCandidates r ds outs res
      = (discoveryCandidates .rotate0 ds outs res).map swapWH := by
  simp only [discoveryCandidates, List.map_flatMap,
    apply_ite (List.map swapWH), List.map_cons, List.map_nil,
    rotateMode_of_quarter r h, rotateMode_of_straight .rotate0 (Or.inl rfl)]

theorem discoveryCandidates_straight (r : RotationState)
    (h : r = .rotate0 ∨ r = .rotate180) (ds outs : List Nat)
    (res : List XRRModeInfo) :
    discoveryCandidates r ds outs res = discoveryCandidates .rotate0 ds outs res := by
  simp only [discoveryCandidates, rotateMode_of_straight r h,
    rotateMode_of_straight .rotate0 (Or.inl rfl)]

theorem foldl_map_step {α γ : Type _} (f g : α → γ → α) (h : α → α)
    (hc : ∀ acc x, f (h acc) x = h (g acc x)) (l : List γ) :
    ∀ init, l.foldl f (h init) = h (l.foldl g init) := by
  induction l with
  | nil => intro init; rfl
  | cons a l ih => intro init; rw [List.foldl_cons, List.foldl_cons, hc, ih]

theorem enum_modes_quarter (r : RotationState)
    (h : r = .rotate90 ∨ r = .rotate270) (rs : Option (List XRRModeInfo))
    (o dp : Option (List Nat)) (dd : Nat) :
    (getFullscreenModes ⟨true, true, some r, rs, o, dp, dd⟩).modes
      = ((getFullscreenModes ⟨true, true, some .rotate0, rs, o, dp, dd⟩).modes).map
          swapWH := by
  rcases rs with _ | res
  · simp [getFullscreenModes]
  rcases o with _ | outs
  · simp [getFullscreenModes]
  rcases dp with _ | ⟨_ | ⟨d0, ds⟩⟩
  · simp [getFullscreenModes]
  · simp [getFullscreenModes]
  · rw [getFullscreenModes_success _ r res outs (d0 :: ds) rfl rfl rfl rfl rfl rfl
      (by simp), getFullscreenModes_success _ .rotate0 res outs (d0 :: ds) rfl rfl
      rfl rfl rfl rfl (by simp)]
    simp only
    rw [discoveryCandidates_quarter r h, dedupFirst_map_injective swapWH_injective]

theorem enum_modes_straight (r : RotationState)
    (h : r = .rotate0 ∨ r = .rotate180) (rs : Option (List XRRModeInfo))
    (o dp : Option (List Nat)) (dd : Nat) :
    (getFullscreenModes ⟨true, true, some r, rs, o, dp, dd⟩).modes
      = (getFullscreenModes ⟨true, true, some .rotate0, rs, o, dp, dd⟩).modes := by
  rcases rs with _ | res
  · simp [getFullscreenModes]
  rcases o with _ | outs
  · simp [getFullscreenModes]
  rcases dp with _ | ⟨_ | ⟨d0, ds⟩⟩
  · simp [getFullscreenModes]
  · simp [getFullscreenModes]
  · rw [getFullscreenModes_success _ r res outs (d0 :: ds) rfl rfl rfl rfl rfl rfl
      (by simp), getFullscreenModes_success _ .rotate0 res outs (d0 :: ds) rfl rfl
      rfl rfl rfl rfl (by simp)]
    simp only
    rw [discoveryCandidates_straight r h]

theorem desktop_mode_quarter (r : RotationState)
    (h : r = .rotate90 ∨ r = .rotate270) (rs : Option (List XRRModeInfo))
    (o dp : Option (List Nat)) (dd : Nat) :
    (getDesktopMode ⟨true, true, some r, rs, o, dp, dd⟩).mode
      = ((getDesktopMode ⟨true, true, some .rotate0, rs, o, dp, dd⟩).mode).map
          swapWH := by
  rcases rs with _ | res
  · simp [getDesktopMode, swapWH]
  rcases o with _ | ⟨_ | ⟨m0, rest⟩⟩
  · simp [getDesktopMode, swapWH]
  · simp [getDesktopMode]
  · simp only [getDesktopMode, if_true, List.head?, Option.map_some']
    refine congrArg some ?_
    exact foldl_map_step
      (fun acc info =>
        if m0 = info.id then rotateMode r ⟨info.width, info.height, dd⟩ else acc)
      (fun acc info =>
        if m0 = info.id then rotateMode .rotate0 ⟨info.width, info.height, dd⟩ else acc)
      swapWH
      (by
        intro acc info
        by_cases hm : m0 = info.id
        · simp [hm, rotateMode_of_quarter r h,
            rotateMode_of_straight .rotate0 (Or.inl rfl)]
        · simp [hm])
      res ⟨0, 0, 0⟩

theorem desktop_mode_straight (r : RotationState)
    (h : r = .rotate0 ∨ r = .rotate180) (rs : Option (List XRRModeInfo))
    (o dp : Option (List Nat)) (dd : Nat) :
    (getDesktopMode ⟨true, true, some r, rs, o, dp, dd⟩).mode
      = (getDesktopMode ⟨true, true, some .rotate0, rs, o, dp, dd⟩).mode := by
  rcases rs with _ | res
  · simp [getDesktopMode]
  rcases o with _ | ⟨_ | ⟨m0, rest⟩⟩
  · simp [getDesktopMode]
  · simp [getDesktopMode]
  · simp only [getDesktopMode, if_true, List.head?,
      rotateMode_of_straight r h, rotateMode_of_straight .rotate0 (Or.inl rfl)]

/-- C2: in both `getFullscreenModes` and `getDesktopMode`, a candidate
mode's width and height are swapped if and only if the current rotation is
90° or 270°: relative to the same environment with rotation 0°, a 90°/270°
rotation swaps the two dimensions of every returned mode, while a 0°/180°
rotation leaves the results unchanged. -/
theorem rotation_swap_iff_quarter_turn (env : Env) (r : RotationState)
    (h1 : env.display = true) (h2 : env.hasRandr = true)
    (h3 : env.config = some r) :
    ((r = .rotate90 ∨ r = .rotate270) →
      (getFullscreenModes env).modes
        = ((getFullscreenModes { env with config := some .rotate0 }).modes).map swapWH
      ∧ (getDesktopMode env).mode
        = ((getDesktopMode { env with config := some .rotate0 }).mode).map swapWH)
    ∧ ((r = .rotate0 ∨ r = .rotate180) →
      (getFullscreenModes env).modes
        = (getFullscreenModes { env with config := some .rotate0 }).modes
      ∧ (getDesktopMode env).mode
        = (getDesktopMode { env with config := some .rotate0 }).mode) := by
  obtain ⟨d, x, c, rs, o, dp, dd⟩ := env
  simp only at h1 h2 h3
  subst h1 h2 h3
  exact ⟨fun h90 => ⟨enum_modes_quarter r h90 rs o dp dd,
      desktop_mode_quarter r h90 rs o dp dd⟩,
    fun hst => ⟨enum_modes_straight r hst rs o dp dd,
      desktop_mode_straight r hst rs o dp dd⟩⟩

/-- Witness for C2 at rotation 90°: the 1920×1080 descriptor is returned as
1080×1920 by the enumerator and by the desktop resolver. -/
theorem rotation_swap_iff_quarter_turn_witness :
    (((RotationState.rotate90 = RotationState.rotate90 ∨
        RotationState.rotate90 = RotationState.rotate270) →
      (getFullscreenModes
          ⟨true, true, some .rotate90, some [⟨1, 1920, 1080⟩], some [1], some [24], 24⟩).modes
        = ((getFullscreenModes
            { (⟨true, true, some .rotate90, some [⟨1, 1920, 1080⟩], some [1], some [24], 24⟩ : Env)
              with config := some .rotate0 }).modes).map swapWH
      ∧ (getDesktopMode
          ⟨true, true, some .rotate90, some [⟨1, 1920, 1080⟩], some [1], some [24], 24⟩).mode
        = ((getDesktopMode
            { (⟨true, true, some .rotate90, some [⟨1, 1920, 1080⟩], some [1], some [24], 24⟩ : Env)
              with config := some .rotate0 }).mode).map swapWH)
    ∧ ((RotationState.rotate90 = RotationState.rotate0 ∨
        RotationState.rotate90 = RotationState.rotate180) →
      (getFullscreenModes
          ⟨true, true, some .rotate90, some [⟨1, 1920, 1080⟩], some [1], some [24], 24⟩).modes
        = (getFullscreenModes
            { (⟨true, true, some .rotate90, some [⟨1, 1920, 1080⟩], some [1], some [24], 24⟩ : Env)
              with config := some .rotate0 }).modes
      ∧ (getDesktopMode
          ⟨true, true, some .rotate90, some [⟨1, 1920, 1080⟩], some [1], some [24], 24⟩).mode
        = (getDesktopMode
            { (⟨true, true, some .rotate90, some [⟨1, 1920, 1080⟩], some [1], some [24], 24⟩ : Env)
              with config := some .rotate0 }).mode))
    ∧ (getFullscreenModes
        ⟨true, true, some .rotate90, some [⟨1, 1920, 1080⟩], some [1], some [24], 24⟩).modes
      = [⟨1080, 1920, 24⟩] :=
  ⟨rotation_swap_iff_quarter_turn _ .rotate90 rfl rfl rfl, by decide⟩

/-- Counterexample to C9: when `XListDepths` returns a non-null array with
`nbDepths == 0`, the guard `if (depths && (nbDepths > 0))` is false and the
`XFree(depths)` inside it is skipped, so the acquired depth array is never
released — the trace holds its acquisition and no matching release. -/
theorem getFullscreenModes_depth_array_leak :
    (getFullscreenModes
        ⟨true, true, some .rotate0, some [], some [], some [], 0⟩).events.count
      (Event.acquire .depthList) = 1
    ∧ (getFullscreenModes
        ⟨true, true, some .rotate0, some [], some [], some [], 0⟩).events.count
      (Event.release .depthList) = 0 := by
  decide

/-- C9 as amended: on every execution path of `getDesktopMode`, and on every
execution path of `getFullscreenModes` except the one where the depth-list
query returns a non-null empty array (where the depth array is acquired and
never released), every acquired resource is released exactly once and the
releases occur in exact reverse of acquisition order (the event trace obeys
stack discipline and ends balanced). -/
theorem resource_release_bracketed (env : Env) (h : env.depths ≠ some []) :
    checkBracketed (getFullscreenModes env).events [] = true
    ∧ checkBracketed (getDesktopMode env).events [] = true := by
  obtain ⟨d, x, c, rs, o, dp, dd⟩ := env
  simp only at h
  cases d <;> cases x <;> cases c <;> cases rs <;> cases o <;>
    rcases dp with _ | ⟨_ | ⟨d0, ds⟩⟩ <;>
    simp_all [getFullscreenModes, getDesktopMode, checkBracketed]

/-- Witness for the amended C9: a fully successful run of both functions
produces a balanced, stack-disciplined resource trace. -/
theorem resource_release_bracketed_witness :
    checkBracketed
      (getFullscreenModes
        ⟨true, true, some .rotate270, some [⟨1, 1024, 768⟩], some [1], some [16, 24], 24⟩).events
      [] = true
    ∧ checkBracketed
      (getDesktopMode
        ⟨true, true, some .rotate270, some [⟨1, 1024, 768⟩], some [1], some [16, 24], 24⟩).events
      [] = true :=
  resource_release_bracketed _ (by decide)

end SfmlVideoMode
